import Mathlib

/-!
Verification of the LiveDataRag Action Decision and Execution Engine
against its natural-language specification.

The repository ships a React frontend only; the backend core (Condition
Evaluator, Decision Scorer, Safety Gate, Confirmation Manager) is described
by the specification but has no implementation in the sources.  Frontend
logic (rule validation, the client-side auto-confirm countdown, the system
store, the rules CRUD helpers) is embedded directly from the JavaScript
sources; the missing backend components are modelled from the specification
and are marked as such in their doc comments.

Layout: all definitions first, then helper lemmas, then the claim theorems.
-/

namespace LiveDataRag

/-! ## Rule creation and save-time validation

Embedded from Frontend/src/components/RulesManager/RuleCreator.jsx.
The condition record mirrors the initial rule shape of the component
(lines 60 to 67): fields type, keywords, field, operator, threshold,
pattern.  There is no second threshold bound in the shape.
-/

/-- JavaScript blankness test used by the validator: a string is blank
when trimming it yields the empty string, i.e. every character is
whitespace.  This models the falsiness of s.trim() in the source. -/
def jsBlank (s : String) : Bool := s.data.all Char.isWhitespace

/-- The condition sub-object of a rule under construction in RuleCreator.
`threshold` is `none` when the JavaScript value is null or the empty
string. -/
structure RCCondition where
  type : String
  keywords : List String
  field : String
  operator : String
  threshold : Option ℚ
  pattern : String
deriving DecidableEq

/-- The rule under construction in RuleCreator (only the parts read by
validation). -/
structure RCRule where
  name : String
  condition : RCCondition
deriving DecidableEq

/-- The initial condition shape of RuleCreator (lines 60 to 67). -/
def initialRCCondition : RCCondition :=
  { type := "keyword", keywords := [], field := "",
    operator := "greater_than", threshold := some 0, pattern := "" }

/-- The operator values offered by RuleCreator (lines 102 to 108). -/
def rcOperators : List String :=
  ["greater_than", "less_than", "equals", "not_equals", "between"]

/-- validateRule (RuleCreator.jsx lines 148 to 174): returns the list of
fields carrying a validation error, in the order the checks run. -/
def validateRule (r : RCRule) : List String :=
  (if jsBlank r.name then ["name"] else []) ++
  (if r.condition.type = "keyword" ∧ r.condition.keywords.length = 0 then
    ["keywords"] else []) ++
  (if r.condition.type = "threshold" ∧ r.condition.field = "" then
    ["field"] else []) ++
  (if r.condition.type = "threshold" ∧ r.condition.threshold = none then
    ["threshold"] else []) ++
  (if r.condition.type = "pattern" ∧ jsBlank r.condition.pattern then
    ["pattern"] else [])

/-- handleSave (RuleCreator.jsx lines 176 to 180): the rule is handed to
onSave exactly when validateRule reports no errors. -/
def handleSave (r : RCRule) : Option RCRule :=
  if validateRule r = [] then some r else none

/-! ## Spec-modelled Condition Evaluator, threshold branch

The backend Condition Evaluator described in section 4.1 of the
specification has no implementation in the sources.
-/

/-- The result of evaluating a condition against a DataPoint. -/
structure MatchResult where
  matched : Bool
  detail : String
deriving DecidableEq

/-- A threshold condition as the specification describes it: a field name,
an operator among gt, lt, eq, neq, between, a bound value and an optional
second bound. -/
structure ThresholdCond where
  field : String
  op : String
  value : ℚ
  value2 : Option ℚ
deriving DecidableEq

/-- A DataPoint restricted to its numeric fields, which are the only ones
the threshold branch reads. -/
structure DataPoint where
  fields : List (String × ℚ)
deriving DecidableEq

/-- Modelled from the spec: the threshold branch of the Condition
Evaluator (section 4.1), absent from the sources.  A missing field is a
non-fatal non-match; gt, lt, eq, neq compare the field to value; between
requires value ≤ field ≤ value2 inclusively and is an error when value2
is absent. -/
def evalThreshold (c : ThresholdCond) (dp : DataPoint) : Except String MatchResult :=
  match dp.fields.lookup c.field with
  | none => Except.ok ⟨false, "field missing"⟩
  | some x =>
    if c.op = "gt" then Except.ok ⟨decide (c.value < x), "compared gt"⟩
    else if c.op = "lt" then Except.ok ⟨decide (x < c.value), "compared lt"⟩
    else if c.op = "eq" then Except.ok ⟨decide (x = c.value), "compared eq"⟩
    else if c.op = "neq" then Except.ok ⟨decide (x ≠ c.value), "compared neq"⟩
    else if c.op = "between" then
      match c.value2 with
      | none => Except.error "value2 missing for between"
      | some v2 => Except.ok ⟨decide (c.value ≤ x ∧ x ≤ v2), "compared between"⟩
    else Except.error "unknown operator"

/-! ## Spec-modelled Decision Scorer and Safety Gate confidence check

Sections 4.2 and 4.3 of the specification; absent from the sources.
-/

/-- An optional upstream signal consumed by the Decision Scorer. -/
structure ExternalSignal where
  confidence : ℚ
  urgency : ℚ
  reason : String
deriving DecidableEq

/-- The per-rule inputs the Decision Scorer reads: the rule id and the
optionally configured urgency. -/
structure ScoredRule where
  id : String
  urgency : Option ℚ
deriving DecidableEq

/-- A scored decision. -/
structure Decision where
  rule_id : String
  confidence : ℚ
  urgency : ℚ
  reason : String
  action_required : Bool
deriving DecidableEq

/-- The rule-independent plausibility baseline of section 4.2: one half. -/
def baselineConfidence : ℚ := ⟨1, 2, by decide, by decide⟩

/-- Modelled from the spec: the Decision Scorer (section 4.2), absent from
the sources.  Base confidence is 1 for a boolean match unless an external
signal supplies one; urgency defaults to the per-rule value, else 5;
action_required compares confidence to the rule-independent baseline. -/
def score (mr : MatchResult) (ru : ScoredRule) (sig : Option ExternalSignal) : Decision :=
  let conf : ℚ :=
    match sig with
    | some s => s.confidence
    | none => 1
  { rule_id := ru.id
    confidence := conf
    urgency :=
      match ru.urgency with
      | some u => u
      | none => 5
    reason := mr.detail
    action_required := decide (baselineConfidence ≤ conf) }

/-- The process-wide safety policy of section 3. -/
structure SafetyPolicy where
  confidence_threshold : ℚ
  rate_limit_window : ℕ
  rate_limit_max : ℕ
  dedup_window : ℕ
  default_safety_level : String
deriving DecidableEq

/-- Terminal outcome of a Safety Gate check. -/
inductive GateOutcome
  | accepted
  | blocked
  | rate_limited
deriving DecidableEq

/-- Modelled from the spec: the Safety Gate confidence check (section 4.3,
check 1), absent from the sources: a decision whose confidence is below
the policy threshold is blocked. -/
def gateConfidenceCheck (pol : SafetyPolicy) (d : Decision) : GateOutcome :=
  if d.confidence < pol.confidence_threshold then GateOutcome.blocked
  else GateOutcome.accepted

/-! ## Spec-modelled Safety Gate rate limiter

Section 4.3 check 2 and the rate-limiting property of section 8; absent
from the sources.
-/

/-- The sliding-window key: rule id and action type. -/
structure GateKey where
  rule_id : String
  action_type : String
deriving DecidableEq

/-- An accepted action record held by the rate limiter: its key paired
with its arrival time. -/
abbrev RLEntry := GateKey × ℕ

/-- The accepted entries for key k lying within the window of length W
ending at time t (age below W). -/
def windowCount (st : List RLEntry) (k : GateKey) (t W : ℕ) : ℕ :=
  (st.filter (fun e => e.1 = k ∧ t < e.2 + W)).length

/-- Modelled from the spec: the rate-limit check of the Safety Gate
(section 4.3, check 2), absent from the sources.  With policy limit N over
window W, a decision for key k arriving at time t is rate_limited when N
or more accepted actions for k lie within the window, and no action is
recorded for it; otherwise it is accepted and recorded. -/
def rateLimitStep (N W : ℕ) (st : List RLEntry) (k : GateKey) (t : ℕ) :
    GateOutcome × List RLEntry :=
  if N ≤ windowCount st k t W then (GateOutcome.rate_limited, st)
  else (GateOutcome.accepted, (k, t) :: st)

/-- Run the rate limiter over a time-ordered list of arriving decisions,
returning each decision with its outcome and the final accepted state. -/
def runRateLimiter (N W : ℕ) : List RLEntry → List RLEntry →
    List (RLEntry × GateOutcome) × List RLEntry
  | st, [] => ([], st)
  | st, e :: evs =>
    let p := rateLimitStep N W st e.1 e.2
    let rest := runRateLimiter N W p.2 evs
    ((e, p.1) :: rest.1, rest.2)

/-- The accepted entries for key k whose time lies in the rolling window
starting at s, of length W. -/
def acceptedInWindow (st : List RLEntry) (k : GateKey) (s W : ℕ) : ℕ :=
  (st.filter (fun e => e.1 = k ∧ s ≤ e.2 ∧ e.2 < s + W)).length

/-- The rate-limiting bound: in every rolling window of length W, at most
N accepted actions per key. -/
def RateBound (N W : ℕ) (st : List RLEntry) : Prop :=
  ∀ k s, acceptedInWindow st k s W ≤ N

/-! ## Spec-modelled Confirmation Manager

Section 4.4 of the specification; absent from the sources.  The frontend
confirmAction helpers (Frontend/src/services/api.js line 81 and the system
context confirmAction) only forward the call to the backend endpoint.
-/

/-- Confirmation states of an action: requires_confirmation is the initial
state, the rest are terminal. -/
inductive ConfStatus
  | requiresConfirmation
  | confirmed
  | rejected
  | expired
deriving DecidableEq

/-- Terminal states of the confirmation state machine. -/
def ConfStatus.isTerminal : ConfStatus → Bool
  | .requiresConfirmation => false
  | _ => true

/-- What a confirm or reject call reports: the (terminal) status, whether
the action was already resolved, and whether this call handed the action
to the executor. -/
structure ConfirmOutcome where
  status : ConfStatus
  alreadyResolved : Bool
  triggeredExecution : Bool
deriving DecidableEq

/-- Modelled from the spec: resolving an action held by the Confirmation
Manager (section 4.4), absent from the sources.  The first confirm or
reject call moves the action out of requires_confirmation, a confirm
handing it to the executor; a call on an already-terminal action is
answered with a benign already-resolved result carrying the existing
terminal state, changes nothing and triggers no execution. -/
def resolveAction (st : ConfStatus) (confirm : Bool) : ConfStatus × ConfirmOutcome :=
  if st.isTerminal then (st, ⟨st, true, false⟩)
  else
    let t := if confirm then ConfStatus.confirmed else ConfStatus.rejected
    (t, ⟨t, false, confirm⟩)

/-- Run a sequence of confirm (true) and reject (false) calls against one
action, returning the final status and each call's reported outcome. -/
def runResolutions (st : ConfStatus) : List Bool → ConfStatus × List ConfirmOutcome
  | [] => (st, [])
  | c :: cs =>
    let p := resolveAction st c
    let rest := runResolutions p.1 cs
    (rest.1, p.2 :: rest.2)

/-! ## ActionPreview auto-confirm countdown

Embedded from the ActionPreview component in
Frontend/src/components/common/ErrorBoundary.jsx (lines 1307 to 1651).
-/

/-- The fields of the action object bearing on the countdown.  The
component destructures requires_confirmation (default true) and never
reads a safety level; safety_level is carried here so the claims about it
can be stated. -/
structure UIAction where
  safety_level : String
  requires_confirmation : Bool
deriving DecidableEq

/-- The ActionPreview component state bearing on the countdown: the
countdown value (useState 30, line 1317) plus counters for how often the
onConfirm and onReject callbacks have fired. -/
structure PreviewState where
  countdown : ℕ
  confirms : ℕ
  rejects : ℕ
deriving DecidableEq

/-- The initial component state: countdown 30, no callback fired. -/
def previewInit : PreviewState := ⟨30, 0, 0⟩

/-- The guard of the auto-confirm effect (line 1381): a timer is pending
exactly when the autoConfirm flag and requires_confirmation hold and the
countdown is positive.  The guard never consults safety_level. -/
def countdownActive (autoConfirm : Bool) (a : UIAction) (s : PreviewState) : Bool :=
  autoConfirm && a.requires_confirmation && decide (0 < s.countdown)

/-- Events acting on ActionPreview: the pending one-second timer firing,
or the user clicking the explicit confirm or reject button. -/
inductive PreviewEvent
  | tick
  | clickConfirm
  | clickReject
deriving DecidableEq

/-- One ActionPreview transition.  A tick is the pending timer firing
(lines 1382 to 1387): it decrements the countdown and, when the countdown
stood at one, invokes onConfirm.  The explicit buttons (lines 1633 and
1642) invoke onReject and onConfirm without touching the countdown. -/
def previewStep (autoConfirm : Bool) (a : UIAction) (s : PreviewState) :
    PreviewEvent → PreviewState
  | .tick =>
    if countdownActive autoConfirm a s then
      { s with countdown := s.countdown - 1,
               confirms := if s.countdown = 1 then s.confirms + 1 else s.confirms }
    else s
  | .clickConfirm => { s with confirms := s.confirms + 1 }
  | .clickReject => { s with rejects := s.rejects + 1 }

/-- Run ActionPreview over a sequence of events. -/
def previewRun (autoConfirm : Bool) (a : UIAction) (s : PreviewState)
    (evs : List PreviewEvent) : PreviewState :=
  evs.foldl (previewStep autoConfirm a) s

/-! ## System store

Embedded from Frontend/src/store/systemStore.js.  The element type of the
three history lists is abstract.
-/

/-- The zustand store state (the parts the claims concern). -/
structure SystemStore (α : Type) where
  isActive : Bool
  dataStreams : List α
  actions : List α
  queries : List α
  autoConfirmActions : Bool
deriving DecidableEq

/-- The store's initial state (systemStore.js lines 8 to 18). -/
def initialSystemStore {α : Type} : SystemStore α :=
  { isActive := true, dataStreams := [], actions := [], queries := [],
    autoConfirmActions := false }

/-- addDataStream (line 28): prepend, keeping only the 50 latest. -/
def addDataStream {α : Type} (s : SystemStore α) (x : α) : SystemStore α :=
  { s with dataStreams := x :: s.dataStreams.take 49 }

/-- addAction (line 32): prepend, keeping only the 100 latest. -/
def addAction {α : Type} (s : SystemStore α) (x : α) : SystemStore α :=
  { s with actions := x :: s.actions.take 99 }

/-- addQuery (line 36): prepend, keeping only the 50 latest. -/
def addQuery {α : Type} (s : SystemStore α) (x : α) : SystemStore α :=
  { s with queries := x :: s.queries.take 49 }

/-- toggleSystem (line 26). -/
def toggleSystem {α : Type} (s : SystemStore α) : SystemStore α :=
  { s with isActive := !s.isActive }

/-- clearHistory (line 48). -/
def clearHistory {α : Type} (s : SystemStore α) : SystemStore α :=
  { s with actions := [], queries := [], dataStreams := [] }

/-- setAutoConfirm (line 42). -/
def setAutoConfirm {α : Type} (s : SystemStore α) (b : Bool) : SystemStore α :=
  { s with autoConfirmActions := b }

/-- The store's update operations. -/
inductive StoreOp (α : Type)
  | addDataStream (x : α)
  | addAction (x : α)
  | addQuery (x : α)
  | toggleSystem
  | clearHistory
  | setAutoConfirm (b : Bool)

/-- Apply one store operation. -/
def applyStoreOp {α : Type} (s : SystemStore α) : StoreOp α → SystemStore α
  | .addDataStream x => addDataStream s x
  | .addAction x => addAction s x
  | .addQuery x => addQuery s x
  | .toggleSystem => toggleSystem s
  | .clearHistory => clearHistory s
  | .setAutoConfirm b => setAutoConfirm s b

/-- Apply a sequence of store operations. -/
def runStoreOps {α : Type} (s : SystemStore α) (ops : List (StoreOp α)) : SystemStore α :=
  ops.foldl applyStoreOp s

/-- The history bounds the claims assert. -/
def storeBounded {α : Type} (s : SystemStore α) : Prop :=
  s.dataStreams.length ≤ 50 ∧ s.actions.length ≤ 100 ∧ s.queries.length ≤ 50

/-! ## Rules CRUD on the client system context

Embedded from the SystemProvider updateRule and deleteRule state updates
(src/unnamed/part_003 lines 233 to 264).
-/

/-- A JavaScript object modelled as a key-value list; lookup takes the
first binding. -/
abbrev JSObj := List (String × String)

/-- Field access r.k on a JavaScript object. -/
def getField (r : JSObj) (k : String) : Option String := r.lookup k

/-- The JavaScript spread of updates over a rule: bindings of the updates
shadow those of the rule. -/
def spreadObj (r u : JSObj) : JSObj := u ++ r

/-- updateRule state update (part_003 lines 237 to 239): map over the
rules, merging the updates into exactly the rules whose id matches. -/
def updateRuleList (rules : List JSObj) (rid : String) (updates : JSObj) : List JSObj :=
  rules.map (fun r => if getField r "id" = some rid then spreadObj r updates else r)

/-- deleteRule state update (part_003 line 256): keep exactly the rules
whose id differs. -/
def deleteRuleList (rules : List JSObj) (rid : String) : List JSObj :=
  rules.filter (fun r => ¬ (getField r "id" = some rid))

/-! ## Concrete inputs used by the claim theorems and witnesses -/

/-- A keyword rule whose keyword set is empty. -/
def emptyKeywordRule : RCRule :=
  { name := "watch list", condition := initialRCCondition }

/-- A pattern rule whose pattern is the single character left bracket,
which is not a syntactically valid JavaScript regular expression (the
RegExp constructor throws on it). -/
def patternRuleInvalidRegex : RCRule :=
  { name := "bad regex",
    condition := { initialRCCondition with type := "pattern", pattern := "[" } }

/-- A pattern rule whose pattern is blank. -/
def patternRuleBlank : RCRule :=
  { name := "blank regex",
    condition := { initialRCCondition with type := "pattern", pattern := " " } }

/-- A between rule exactly as RuleCreator can construct it: the condition
shape carries a single threshold and no second bound. -/
def betweenRuleNoSecondBound : RCRule :=
  { name := "price corridor",
    condition := { initialRCCondition with
      type := "threshold", field := "price", operator := "between" } }

/-- A between condition with both bounds, for the evaluator witness. -/
def betweenCondDemo : ThresholdCond :=
  { field := "price", op := "between", value := 0, value2 := some 10 }

/-- A concrete data point for the evaluator witness. -/
def dataPointDemo : DataPoint := { fields := [("price", 5)] }

/-- A concrete key for the rate-limiter witness. -/
def gateKeyDemo : GateKey := { rule_id := "r1", action_type := "alert" }

/-- Three same-key arrivals in close succession for the rate-limiter
witness. -/
def rlDemoEvents : List RLEntry :=
  [(gateKeyDemo, 0), (gateKeyDemo, 1), (gateKeyDemo, 2)]

/-- A high-safety action that requires confirmation. -/
def highAction : UIAction := { safety_level := "high", requires_confirmation := true }

/-- Two concrete rule objects for the CRUD witness. -/
def demoRule1 : JSObj := [("id", "r1"), ("name", "alpha")]

/-- Second concrete rule object for the CRUD witness. -/
def demoRule2 : JSObj := [("id", "r2"), ("name", "beta")]

/-- The concrete rules list for the CRUD witness. -/
def demoRules : List JSObj := [demoRule1, demoRule2]

/-- The concrete updates object for the CRUD witness. -/
def demoUpdates : JSObj := [("name", "renamed")]

/-! ## Claim theorems -/

/-- C5: a keyword rule with an empty keyword set fails validation (the
keywords error is reported) and handleSave does not hand the rule to
onSave, so an empty keyword set never reaches evaluation. -/
theorem C5_empty_keyword_set_rejected (r : RCRule)
    (ht : r.condition.type = "keyword") (hk : r.condition.keywords = []) :
    "keywords" ∈ validateRule r ∧ handleSave r = none := by
  have hmem : "keywords" ∈ validateRule r := by
    unfold validateRule
    rw [ht, hk]
    simp
  refine ⟨hmem, ?_⟩
  unfold handleSave
  rw [if_neg]
  intro h
  rw [h] at hmem
  exact List.not_mem_nil _ hmem

/-- Witness for C5 at a concrete empty-keyword rule. -/
theorem C5_empty_keyword_set_rejected_witness :
    emptyKeywordRule.condition.type = "keyword" ∧
    emptyKeywordRule.condition.keywords = [] ∧
    ("keywords" ∈ validateRule emptyKeywordRule ∧ handleSave emptyKeywordRule = none) :=
  ⟨rfl, rfl, C5_empty_keyword_set_rejected emptyKeywordRule rfl rfl⟩

/-- C6 counterexample: the pattern consisting of the single left bracket
is not a syntactically valid JavaScript regular expression, yet the rule
passes validateRule and handleSave proceeds: save-time validation checks
only that the pattern is non-blank. -/
theorem C6_invalid_regex_passes_validation :
    validateRule patternRuleInvalidRegex = [] ∧
    handleSave patternRuleInvalidRegex = some patternRuleInvalidRegex := by decide

/-- C6 amended: for a pattern rule, save-time validation reports a pattern
error exactly when the pattern is blank; regex syntactic validity is not
examined at save time. -/
theorem C6_pattern_validation_checks_blankness_only (r : RCRule)
    (ht : r.condition.type = "pattern") :
    ("pattern" ∈ validateRule r ↔ jsBlank r.condition.pattern = true) := by
  cases hb : jsBlank r.condition.pattern <;> cases hn : jsBlank r.name <;>
    simp [validateRule, ht, hb, hn]

/-- Witness for the amended C6 at a concrete blank-pattern rule. -/
theorem C6_pattern_validation_checks_blankness_only_witness :
    patternRuleBlank.condition.type = "pattern" ∧
    ("pattern" ∈ validateRule patternRuleBlank ↔
      jsBlank patternRuleBlank.condition.pattern = true) :=
  ⟨rfl, C6_pattern_validation_checks_blankness_only patternRuleBlank rfl⟩

/-- C7 counterexample: a validly constructed between rule need not carry a
second bound — the RuleCreator condition shape has no value2 field at all,
validation accepts a between rule, and the spec-modelled evaluator then
errors on the corresponding second-bound-free condition. -/
theorem C7_between_rule_saved_without_second_bound :
    validateRule betweenRuleNoSecondBound = [] ∧
    handleSave betweenRuleNoSecondBound = some betweenRuleNoSecondBound ∧
    evalThreshold { field := "price", op := "between", value := 0, value2 := none }
      { fields := [("price", 5)] } = Except.error "value2 missing for between" :=
  ⟨by decide, by decide, by rfl⟩

/-- C7 amended: spec-modelled between evaluation succeeds exactly when
value ≤ field ≤ value2 holds inclusively and is an error when value2 is
absent; however, save-time rule construction does not enforce a second
bound: a between rule without one is saved. -/
theorem C7_between_two_sided_inclusive (c : ThresholdCond) (dp : DataPoint) (x : ℚ)
    (hop : c.op = "between") (hx : dp.fields.lookup c.field = some x) :
    (c.value2 = none → evalThreshold c dp = Except.error "value2 missing for between") ∧
    (∀ v2, c.value2 = some v2 →
      (evalThreshold c dp = Except.ok ⟨true, "compared between"⟩ ↔
        c.value ≤ x ∧ x ≤ v2)) ∧
    handleSave betweenRuleNoSecondBound = some betweenRuleNoSecondBound := by
  refine ⟨?_, ?_, by decide⟩
  · intro h2
    unfold evalThreshold
    rw [hx, hop, h2]
    simp
  · intro v2 h2
    unfold evalThreshold
    rw [hx, hop, h2]
    simp [decide_eq_true_iff]

/-- Witness for the amended C7 at a concrete two-bound condition and data
point. -/
theorem C7_between_two_sided_inclusive_witness :
    betweenCondDemo.op = "between" ∧
    dataPointDemo.fields.lookup betweenCondDemo.field = some 5 ∧
    ((betweenCondDemo.value2 = none →
        evalThreshold betweenCondDemo dataPointDemo =
          Except.error "value2 missing for between") ∧
      (∀ v2, betweenCondDemo.value2 = some v2 →
        (evalThreshold betweenCondDemo dataPointDemo =
            Except.ok ⟨true, "compared between"⟩ ↔
          betweenCondDemo.value ≤ 5 ∧ (5 : ℚ) ≤ v2)) ∧
      handleSave betweenRuleNoSecondBound = some betweenRuleNoSecondBound) :=
  ⟨rfl, by decide,
    C7_between_two_sided_inclusive betweenCondDemo dataPointDemo 5 rfl (by decide)⟩


theorem C8_action_required_is_baseline_flag (mr : MatchResult) (ru : ScoredRule)
    (sig : Option ExternalSignal) (pol : SafetyPolicy) :
    ((score mr ru sig).action_required = true ↔
      baselineConfidence ≤ (score mr ru sig).confidence) ∧
    (gateConfidenceCheck pol (score mr ru sig) = GateOutcome.blocked ↔
      (score mr ru sig).confidence < pol.confidence_threshold) := by
  constructor
  · simp [score, decide_eq_true_iff]
  · by_cases h : (score mr ru sig).confidence < pol.confidence_threshold <;>
      simp [gateConfidenceCheck, h]

lemma runResolutions_of_terminal (st : ConfStatus) (h : st.isTerminal = true)
    (cs : List Bool) :
    runResolutions st cs = (st, cs.map fun _ => ⟨st, true, false⟩) := by
  induction cs with
  | nil => rfl
  | cons c cs ih => simp [runResolutions, resolveAction, h, ih]

theorem C2_first_call_wins (c : Bool) (cs : List Bool) :
    (runResolutions ConfStatus.requiresConfirmation (c :: cs)).1 =
        (if c then ConfStatus.confirmed else ConfStatus.rejected) ∧
    (runResolutions ConfStatus.requiresConfirmation (c :: cs)).2 =
      ConfirmOutcome.mk (if c then ConfStatus.confirmed else ConfStatus.rejected) false c ::
        cs.map (fun _ => ConfirmOutcome.mk
          (if c then ConfStatus.confirmed else ConfStatus.rejected) true false) := by
  have hterm : (if c then ConfStatus.confirmed else ConfStatus.rejected).isTerminal = true := by
    cases c <;> rfl
  have hres : resolveAction ConfStatus.requiresConfirmation c =
      ((if c then ConfStatus.confirmed else ConfStatus.rejected),
        ⟨(if c then ConfStatus.confirmed else ConfStatus.rejected), false, c⟩) := by
    cases c <;> rfl
  constructor <;>
    simp [runResolutions, hres, runResolutions_of_terminal _ hterm cs]

lemma previewStep_safety_irrelevant (ac : Bool) (lvl lvl2 : String) (rc : Bool)
    (s : PreviewState) (e : PreviewEvent) :
    previewStep ac ⟨lvl, rc⟩ s e = previewStep ac ⟨lvl2, rc⟩ s e := by
  cases e <;> rfl

lemma previewRun_safety_irrelevant (ac : Bool) (lvl lvl2 : String) (rc : Bool)
    (s : PreviewState) (evs : List PreviewEvent) :
    previewRun ac ⟨lvl, rc⟩ s evs = previewRun ac ⟨lvl2, rc⟩ s evs := by
  induction evs generalizing s with
  | nil => rfl
  | cons e evs ih =>
    show previewRun ac ⟨lvl, rc⟩ (previewStep ac ⟨lvl, rc⟩ s e) evs =
      previewRun ac ⟨lvl2, rc⟩ (previewStep ac ⟨lvl2, rc⟩ s e) evs
    rw [previewStep_safety_irrelevant ac lvl lvl2 rc s e]
    exact ih _

set_option maxRecDepth 20000 in
theorem C3_high_action_countdown_fires :
    countdownActive true highAction previewInit = true ∧
    (previewRun true highAction previewInit
      (List.replicate 30 PreviewEvent.tick)).confirms = 1 := by
  decide

theorem C3_countdown_ignores_safety_level (ac : Bool) (lvl lvl2 : String) (rc : Bool)
    (s : PreviewState) (evs : List PreviewEvent) :
    previewRun ac ⟨lvl, rc⟩ s evs = previewRun ac ⟨lvl2, rc⟩ s evs ∧
    previewStep false ⟨lvl, rc⟩ s PreviewEvent.tick = s :=
  ⟨previewRun_safety_irrelevant ac lvl lvl2 rc s evs,
    by simp [previewStep, countdownActive]⟩

set_option maxRecDepth 20000 in
theorem C4_explicit_confirm_does_not_cancel_timer :
    (previewRun true highAction previewInit
      (PreviewEvent.clickConfirm :: List.replicate 30 PreviewEvent.tick)).confirms = 2 := by
  decide

set_option maxRecDepth 20000 in
theorem C4_countdown_thirty_and_autofire (a : UIAction)
    (h : a.requires_confirmation = true) :
    previewInit.countdown = 30 ∧
    (previewRun true a previewInit (List.replicate 30 PreviewEvent.tick)).countdown = 0 ∧
    (previewRun true a previewInit (List.replicate 30 PreviewEvent.tick)).confirms = 1 ∧
    (previewRun true a previewInit
      (PreviewEvent.clickConfirm :: List.replicate 30 PreviewEvent.tick)).confirms = 2 ∧
    (∀ s : PreviewState, previewStep false a s PreviewEvent.tick = s) := by
  obtain ⟨lvl, rc⟩ := a
  have hrc : rc = true := h
  subst hrc
  refine ⟨rfl, ?_, ?_, ?_, ?_⟩
  · rw [previewRun_safety_irrelevant true lvl "high" true]
    decide
  · rw [previewRun_safety_irrelevant true lvl "high" true]
    decide
  · rw [previewRun_safety_irrelevant true lvl "high" true]
    decide
  · intro s
    simp [previewStep, countdownActive]

theorem C4_countdown_thirty_and_autofire_witness :
    highAction.requires_confirmation = true ∧
    (previewInit.countdown = 30 ∧
      (previewRun true highAction previewInit
        (List.replicate 30 PreviewEvent.tick)).countdown = 0 ∧
      (previewRun true highAction previewInit
        (List.replicate 30 PreviewEvent.tick)).confirms = 1 ∧
      (previewRun true highAction previewInit
        (PreviewEvent.clickConfirm :: List.replicate 30 PreviewEvent.tick)).confirms = 2 ∧
      (∀ s : PreviewState, previewStep false highAction s PreviewEvent.tick = s)) :=
  ⟨rfl, C4_countdown_thirty_and_autofire highAction rfl⟩

lemma applyStoreOp_bounded {α : Type} (s : SystemStore α) (op : StoreOp α)
    (h : storeBounded s) : storeBounded (applyStoreOp s op) := by
  obtain ⟨h1, h2, h3⟩ := h
  cases op with
  | addDataStream x =>
    have ht := s.dataStreams.length_take_le 49
    refine ⟨?_, h2, h3⟩
    show (x :: s.dataStreams.take 49).length ≤ 50
    simp only [List.length_cons]
    omega
  | addAction x =>
    have ht := s.actions.length_take_le 99
    refine ⟨h1, ?_, h3⟩
    show (x :: s.actions.take 99).length ≤ 100
    simp only [List.length_cons]
    omega
  | addQuery x =>
    have ht := s.queries.length_take_le 49
    refine ⟨h1, h2, ?_⟩
    show (x :: s.queries.take 49).length ≤ 50
    simp only [List.length_cons]
    omega
  | toggleSystem => exact ⟨h1, h2, h3⟩
  | clearHistory => exact ⟨Nat.zero_le _, Nat.zero_le _, Nat.zero_le _⟩
  | setAutoConfirm b => exact ⟨h1, h2, h3⟩

lemma runStoreOps_bounded {α : Type} (ops : List (StoreOp α)) (s : SystemStore α)
    (h : storeBounded s) : storeBounded (runStoreOps s ops) := by
  induction ops generalizing s with
  | nil => exact h
  | cons op ops ih => exact ih _ (applyStoreOp_bounded s op h)

theorem C9_store_histories_bounded {α : Type} (ops : List (StoreOp α)) :
    storeBounded (runStoreOps (initialSystemStore (α := α)) ops) ∧
    (∀ (s : SystemStore α) (x : α),
      (addDataStream s x).dataStreams.head? = some x ∧
      (addAction s x).actions.head? = some x ∧
      (addQuery s x).queries.head? = some x) :=
  ⟨runStoreOps_bounded ops _ ⟨Nat.zero_le _, Nat.zero_le _, Nat.zero_le _⟩,
    fun _ _ => ⟨rfl, rfl, rfl⟩⟩

theorem C10_update_delete_frame (rules : List JSObj) (rid : String) (updates : JSObj) :
    (updateRuleList rules rid updates).length = rules.length ∧
    (∀ i (h : i < rules.length),
      getField rules[i] "id" = some rid →
        (updateRuleList rules rid updates)[i]? = some (spreadObj rules[i] updates)) ∧
    (∀ i (h : i < rules.length),
      ¬ (getField rules[i] "id" = some rid) →
        (updateRuleList rules rid updates)[i]? = some rules[i]) ∧
    (deleteRuleList rules rid).Sublist rules ∧
    (∀ r ∈ deleteRuleList rules rid, ¬ (getField r "id" = some rid)) ∧
    (∀ r ∈ rules, ¬ (getField r "id" = some rid) → r ∈ deleteRuleList rules rid) := by
  refine ⟨List.length_map rules _, ?_, ?_, List.filter_sublist rules, ?_, ?_⟩
  · intro i h hid
    unfold updateRuleList
    rw [List.getElem?_map, List.getElem?_eq_getElem h]
    simp [hid]
  · intro i h hid
    unfold updateRuleList
    rw [List.getElem?_map, List.getElem?_eq_getElem h]
    simp [hid]
  · intro r hr
    have hm := List.mem_filter.mp hr
    simpa using hm.2
  · intro r hr hid
    exact List.mem_filter.mpr ⟨hr, by simpa using hid⟩

theorem C10_update_delete_frame_witness :
    (getField demoRules[0] "id" = some "r2" → False) ∧
    ((updateRuleList demoRules "r2" demoUpdates)[0]? = some demoRules[0]) ∧
    (getField demoRules[1] "id" = some "r2") ∧
    ((updateRuleList demoRules "r2" demoUpdates)[1]? =
      some (spreadObj demoRules[1] demoUpdates)) :=
  ⟨by decide,
    (C10_update_delete_frame demoRules "r2" demoUpdates).2.2.1 0 (by decide) (by decide),
    by decide,
    (C10_update_delete_frame demoRules "r2" demoUpdates).2.1 1 (by decide) (by decide)⟩


lemma length_filter_le_of_imp {α : Type} (l : List α) (p q : α → Bool)
    (h : ∀ a, p a = true → q a = true) :
    (l.filter p).length ≤ (l.filter q).length :=
  (List.monotone_filter_right l h).length_le

lemma rateLimitStep_preserves_bound (N W : ℕ) (st : List RLEntry) (k : GateKey) (t : ℕ)
    (hle : ∀ e ∈ st, e.2 ≤ t) (hB : RateBound N W st) :
    RateBound N W (rateLimitStep N W st k t).2 ∧
    ∀ e ∈ (rateLimitStep N W st k t).2, e.2 ≤ t := by
  unfold rateLimitStep
  by_cases h : N ≤ windowCount st k t W
  · rw [if_pos h]
    exact ⟨hB, hle⟩
  · rw [if_neg h]
    refine ⟨?_, ?_⟩
    · intro k2 s
      unfold acceptedInWindow
      by_cases hp : k = k2 ∧ s ≤ t ∧ t < s + W
      · obtain ⟨hk, hs, hw⟩ := hp
        rw [List.filter_cons_of_pos (by simp only [decide_eq_true_eq]; exact ⟨hk, hs, hw⟩)]
        simp only [List.length_cons]
        have hsub : (st.filter (fun e => e.1 = k2 ∧ s ≤ e.2 ∧ e.2 < s + W)).length ≤
            windowCount st k t W := by
          unfold windowCount
          apply length_filter_le_of_imp
          intro a ha
          simp only [decide_eq_true_eq] at ha ⊢
          obtain ⟨hak, has, haw⟩ := ha
          refine ⟨hak.trans hk.symm, ?_⟩
          calc t < s + W := hw
            _ ≤ a.2 + W := Nat.add_le_add_right has W
        omega
      · rw [List.filter_cons_of_neg (by simp only [decide_eq_true_eq]; exact hp)]
        exact hB k2 s
    · intro e he
      rcases List.mem_cons.mp he with rfl | hmem
      · exact Nat.le_refl t
      · exact hle e hmem

lemma runRateLimiter_preserves_bound (N W : ℕ) :
    ∀ (evs : List RLEntry) (st : List RLEntry),
      evs.Pairwise (fun a b => a.2 ≤ b.2) →
      (∀ e ∈ st, ∀ f ∈ evs, e.2 ≤ f.2) →
      RateBound N W st →
      RateBound N W (runRateLimiter N W st evs).2 := by
  intro evs
  induction evs with
  | nil => intro st _ _ hB; exact hB
  | cons e evs ih =>
    intro st hmono hst hB
    obtain ⟨hhead, htail⟩ := List.pairwise_cons.mp hmono
    have hle : ∀ x ∈ st, x.2 ≤ e.2 := fun x hx => hst x hx e (List.mem_cons_self e evs)
    have hstep := rateLimitStep_preserves_bound N W st e.1 e.2 hle hB
    refine ih (rateLimitStep N W st e.1 e.2).2 htail ?_ hstep.1
    intro x hx f hf
    exact le_trans (hstep.2 x hx) (hhead f hf)

theorem C1_rate_limit_sliding_window (N W : ℕ) (evs : List RLEntry)
    (hmono : evs.Pairwise (fun a b => a.2 ≤ b.2)) :
    RateBound N W (runRateLimiter N W [] evs).2 ∧
    (∀ (st : List RLEntry) (k : GateKey) (t : ℕ),
      N ≤ windowCount st k t W →
      rateLimitStep N W st k t = (GateOutcome.rate_limited, st)) := by
  constructor
  · refine runRateLimiter_preserves_bound N W evs [] hmono ?_ ?_
    · intro x hx
      exact absurd hx (List.not_mem_nil x)
    · intro k s
      exact Nat.zero_le N
  · intro st k t h
    unfold rateLimitStep
    rw [if_pos h]

theorem C1_rate_limit_sliding_window_witness :
    rlDemoEvents.Pairwise (fun a b => a.2 ≤ b.2) ∧
    (RateBound 2 10 (runRateLimiter 2 10 [] rlDemoEvents).2 ∧
      (∀ (st : List RLEntry) (k : GateKey) (t : ℕ),
        2 ≤ windowCount st k t 10 →
        rateLimitStep 2 10 st k t = (GateOutcome.rate_limited, st))) :=
  ⟨by decide, C1_rate_limit_sliding_window 2 10 rlDemoEvents (by decide)⟩

end LiveDataRag
